import Mathlib

set_option linter.unusedVariables false

/-!
Verification of the AI real-estate search repository.

Shallow embedding of the code under `src/`:
* `src/services/scraping_service.py` — `ScrapingService.fetch_properties`
* `src/services/ai_service.py`       — `AIService.analyze_properties`
* `src/services/cache_service.py`    — `CacheService.generate_key`
* `src/agents/investment_agent.py`   — `InvestmentAgent.execute` and its default record
* `src/agents/market_trend_agent.py` — `MarketTrendAgent.execute` and its default record
* `src/database/crud.py`             — `PropertyCRUD.search`
* `src/ui/app.py`                    — the search-tab handler (`main`, lines 92-122)

External collaborators (the Firecrawl client, the Gemini client, `json.loads`,
the SQLAlchemy session) are modelled as explicit parameters/oracles; everything
the repository's own code does with their results is translated directly.
Python `str` values are modelled as `String` (with helper functions on
`List Char` mirroring `str.strip`, `str.split`, `str.startswith`, slicing),
Python floats as `ℚ`.
-/

/-! ### Python string helpers -/

/-- The whitespace characters stripped by Python's `str.strip()`. -/
def isPySpace (c : Char) : Bool :=
  c == ' ' || c == '\t' || c == '\n' || c == '\r' || c == '\x0b' || c == '\x0c'

/-- Left part of Python `str.strip()`: drop leading whitespace. -/
def lstripL (cs : List Char) : List Char := cs.dropWhile isPySpace

/-- Right part of Python `str.strip()`: drop trailing whitespace. -/
def rstripL (cs : List Char) : List Char := (cs.reverse.dropWhile isPySpace).reverse

/-- Python `str.strip()` on a list of characters. -/
def pyStripL (cs : List Char) : List Char := rstripL (lstripL cs)

/-- Python `str.strip()`. -/
def pyStrip (s : String) : String := ⟨pyStripL s.data⟩

/-- The markdown fence marker, as a character list (three backticks). -/
def fenceChars : List Char := "```".data

/-- The characters of the language tag `json`. -/
def jsonTagChars : List Char := "json".data

/-- Everything before the first occurrence of the fence marker (the whole list
when no fence occurs).  For a list known to start with the fence marker,
Python's `s.split('```')[1]` equals `takeUntilFence (s.drop 3)`: the element
at index 1 of the split is exactly the segment between the leading fence and
the next fence (or the end of the string when there is no further fence). -/
def takeUntilFence : List Char → List Char
  | [] => []
  | c :: cs => if fenceChars.isPrefixOf (c :: cs) then [] else c :: takeUntilFence cs

/-- The response post-processing shared verbatim by `InvestmentAgent.execute`
(investment_agent.py lines 92-99) and `MarketTrendAgent.execute`
(market_trend_agent.py lines 87-94):

    result_text = response.text.strip()
    if result_text.startswith('```'):
        result_text = result_text.split('```')[1]
        if result_text.startswith('json'):
            result_text = result_text[4:]
        result_text = result_text.strip()
-/
def stripCodeFenceL (cs : List Char) : List Char :=
  let result_text := pyStripL cs
  if fenceChars.isPrefixOf result_text then
    let seg := takeUntilFence (result_text.drop 3)
    let seg := if jsonTagChars.isPrefixOf seg then seg.drop 4 else seg
    pyStripL seg
  else result_text

/-- String-level wrapper for `stripCodeFenceL`. -/
def stripCodeFence (s : String) : String := ⟨stripCodeFenceL s.data⟩

/-! ### JSON values

`json.loads` is the Python standard library, an external collaborator of the
code under verification; it is passed to the agents as an oracle
`jsonParse : String → Option Json`.  `Json` is the shape of its results. -/

/-- A JSON value, the result type of the `json.loads` oracle. -/
inductive Json where
  | null
  | bool (b : Bool)
  | num (q : ℚ)
  | str (s : String)
  | arr (xs : List Json)
  | obj (fields : List (String × Json))

/-! ### External-call oracles -/

/-- Outcome of one call into an external client: either the call raised an
exception, or it returned a value. -/
inductive Call (α : Type) where
  | exn
  | ok (r : α)

/-! ### Scraping service (`src/services/scraping_service.py`) -/

/-- One scraped property record, per the extraction schema
`PropertyData` in `src/schemas/property.py` (note: `price` is a string there,
and there is no city field). -/
structure PropRec where
  building_name : String
  property_type : String
  location_address : String
  price : String
  description : String
deriving DecidableEq, Repr

/-- The `data` member of a Firecrawl response; `properties := none` models a
response whose `data` object lacks the `properties` key
(`response['data'].get('properties', [])` then yields the default `[]`). -/
structure FcData where
  properties : Option (List PropRec)
deriving DecidableEq, Repr

/-- A Firecrawl extraction response `{success: bool, data: {...}}`;
`data := none` models a response without a `data` key, in which case
`response['data']` raises `KeyError`, caught by the surrounding `except`. -/
structure FcResponse where
  success : Bool
  data : Option FcData
deriving DecidableEq, Repr

/-- `ScrapingService.fetch_properties` (scraping_service.py lines 22-69).
The Firecrawl client call (`self.firecrawl.extract(...)`) is the oracle
`resp`; `city`, `max_price` and `property_type` shape only the target URLs and
the extraction prompt sent to the provider. -/
def ScrapingService.fetch_properties (resp : Call FcResponse)
    (city : String) (max_price : ℚ) (property_type : String) : List PropRec :=
  match resp with
  | .ok r =>
    if r.success then
      match r.data with
      | some d => d.properties.getD []
      | none => []          -- response['data'] raises KeyError, caught below
    else []                 -- falls through the if to `return []`
  | .exn => []              -- except Exception: ... return []

/-! ### AI service, free-text mode (`src/services/ai_service.py`) -/

/-- `AIService.analyze_properties` (ai_service.py lines 22-69).  The Gemini
call is the oracle `resp : Call (Option String)`; `.ok none` models a falsy
response object or one without a `text` attribute.  The second component of
the result counts model invocations (0 or 1). -/
def AIService.analyze_properties (resp : Call (Option String))
    (properties : List PropRec) (max_price : ℚ) : String × Nat :=
  if properties.isEmpty then
    ("No properties found. Please try searching with different criteria.", 0)
  else
    match resp with
    | .ok (some t) => (t, 1)
    | .ok none => ("Analysis could not be generated. Please try again.", 1)
    | .exn => ("Error analyzing properties. Please check API configuration.", 1)

/-! ### Investment agent, structured mode (`src/agents/investment_agent.py`) -/

/-- `InvestmentAgent._get_default_analysis` (investment_agent.py lines 118-128). -/
def InvestmentAgent.get_default_analysis : Json :=
  .obj [("roi_5year", .num 0),
        ("roi_10year", .num 0),
        ("appreciation_rate", .num 0),
        ("rental_yield", .num 0),
        ("risk_score", .num 50),
        ("recommendation", .str "hold"),
        ("analysis", .str "Unable to generate investment analysis. Please try again or consult with a real estate expert.")]

/-- `InvestmentAgent.execute` (investment_agent.py lines 31-116).  The Gemini
call is the oracle `resp`; `json.loads` is the oracle `jsonParse`, returning
`none` on `JSONDecodeError`.  `property_data` feeds only the prompt. -/
def InvestmentAgent.execute (jsonParse : String → Option Json)
    (resp : Call (Option String)) (property_data : List (String × String)) : Json :=
  match resp with
  | .ok (some t) =>
    match jsonParse (stripCodeFence t) with
    | some result => result
    | none => InvestmentAgent.get_default_analysis    -- except json.JSONDecodeError
  | .ok none => InvestmentAgent.get_default_analysis  -- no valid response
  | .exn => InvestmentAgent.get_default_analysis      -- except Exception

/-! ### Market-trend agent, structured mode (`src/agents/market_trend_agent.py`) -/

/-- `MarketTrendAgent._get_default_trends` (market_trend_agent.py lines 113-121). -/
def MarketTrendAgent.get_default_trends : Json :=
  .obj [("price_trend", .str "stable"),
        ("demand_level", .str "medium"),
        ("growth_prediction", .num 0),
        ("hot_areas", .arr []),
        ("insights", .str "Unable to generate market trend analysis. Please try again or consult with a real estate market analyst.")]

/-- `MarketTrendAgent.execute` (market_trend_agent.py lines 31-111); same
post-processing and fallback structure as the investment agent. -/
def MarketTrendAgent.execute (jsonParse : String → Option Json)
    (resp : Call (Option String)) (city property_type timeframe : String) : Json :=
  match resp with
  | .ok (some t) =>
    match jsonParse (stripCodeFence t) with
    | some result => result
    | none => MarketTrendAgent.get_default_trends
  | .ok none => MarketTrendAgent.get_default_trends
  | .exn => MarketTrendAgent.get_default_trends

/-! ### Cache service (`src/services/cache_service.py`) -/

/-- The order in which Python's `sorted(kwargs.items())` arranges the
name/value pairs: lexicographic tuple comparison — by name, then by value.
Since `kwargs` is a dict its names are distinct, so the value component is
never actually compared, but Python's tuple ordering is lexicographic. -/
def pairLe (p q : String × String) : Prop :=
  p.1 < q.1 ∨ (p.1 = q.1 ∧ p.2 ≤ q.2)

instance : DecidableRel pairLe := fun p q =>
  inferInstanceAs (Decidable (_ ∨ _))

instance : IsTotal (String × String) pairLe where
  total p q := by
    rcases lt_trichotomy p.1 q.1 with h | h | h
    · exact Or.inl (Or.inl h)
    · rcases le_total p.2 q.2 with h2 | h2
      · exact Or.inl (Or.inr ⟨h, h2⟩)
      · exact Or.inr (Or.inr ⟨h.symm, h2⟩)
    · exact Or.inr (Or.inl h)

instance : IsTrans (String × String) pairLe where
  trans p q r hpq hqr := by
    rcases hpq with h1 | ⟨e1, v1⟩
    · rcases hqr with h2 | ⟨e2, v2⟩
      · exact Or.inl (h1.trans h2)
      · exact Or.inl (e2 ▸ h1)
    · rcases hqr with h2 | ⟨e2, v2⟩
      · exact Or.inl (e1 ▸ h2)
      · exact Or.inr ⟨e1.trans e2, v1.trans v2⟩

instance : IsAntisymm (String × String) pairLe where
  antisymm p q hpq hqp := by
    rcases hpq with h1 | ⟨e1, v1⟩
    · rcases hqp with h2 | ⟨e2, v2⟩
      · exact absurd (h1.trans h2) (lt_irrefl _)
      · exact absurd h1 (e2 ▸ lt_irrefl _)
    · rcases hqp with h2 | ⟨e2, v2⟩
      · exact absurd h2 (e1 ▸ lt_irrefl _)
      · exact Prod.ext e1 (le_antisymm v1 v2)

/-- `CacheService.generate_key` (cache_service.py lines 131-146): starts from
the operation name, appends one "key:value" part per keyword argument in
`sorted(kwargs.items())` order, and joins all parts with ":".
`params` are the keyword arguments with their values already rendered to
strings (the f-string applies `str` to the value). -/
def CacheService.generate_key (pre : String) (params : List (String × String)) : String :=
  String.intercalate ":"
    (pre :: (List.insertionSort pairLe params).map (fun kv => kv.1 ++ ":" ++ kv.2))

/-! ### Property search (`src/database/crud.py`, `PropertyCRUD.search`) -/

/-- A row of the `properties` table (models.py lines 11-33); timestamps are
modelled as naturals, `price` as a rational. -/
structure PropertyRow where
  id : Nat
  building_name : String
  property_type : String
  location_address : String
  city : String
  price : ℚ
  description : String
  created_at : Nat
deriving DecidableEq, Repr

/-- `ORDER BY properties.created_at DESC`: sort rows newest-first. -/
def sortByCreatedDesc (rows : List PropertyRow) : List PropertyRow :=
  List.insertionSort (fun a b => b.created_at ≤ a.created_at) rows

instance : DecidableRel (fun (a b : PropertyRow) => b.created_at ≤ a.created_at) :=
  fun a b => inferInstanceAs (Decidable (_ ≤ _))

/-- `PropertyCRUD.search` (crud.py lines 37-54).  Each filter is guarded by
Python truthiness (`if city:` / `if property_type:` / `if max_price:`), so
`none`, the empty string, and a zero price all leave the filter off;
the query is ordered newest-first and truncated to `limit`. -/
def PropertyCRUD.search (db : List PropertyRow)
    (city : Option String := none) (property_type : Option String := none)
    (max_price : Option ℚ := none) (limit : Nat := 100) : List PropertyRow :=
  let q := db
  let q := match city with
    | some c => if c ≠ "" then q.filter (fun p => p.city == c) else q
    | none => q
  let q := match property_type with
    | some t => if t ≠ "" then q.filter (fun p => p.property_type == t) else q
    | none => q
  let q := match max_price with
    | some m => if m ≠ 0 then q.filter (fun p => decide (p.price ≤ m)) else q
    | none => q
  (sortByCreatedDesc q).take limit

/-! ### The search pipeline (`src/ui/app.py` lines 92-122 plus
`SearchAgent.execute`, `src/agents/search_agent.py` lines 37-78) -/

/-- The fixed responses of the external providers during one session; the
providers are deterministic oracles, so issuing the same request twice
receives the same responses. -/
structure Env where
  scrapeResp : Call FcResponse
  modelResp : Call (Option String)

/-- The composite result returned by `SearchAgent.execute`:
`{'properties': ..., 'analysis': ...}`. -/
structure SearchResult where
  properties : List PropRec
  analysis : String
deriving DecidableEq, Repr

/-- A row of the `search_history` table as created by
`SearchHistoryCRUD.create` (crud.py lines 83-102). -/
structure SearchHistoryRow where
  city : String
  property_type : String
  max_price : ℚ
  results_count : Nat
deriving DecidableEq, Repr

/-- Observable state threaded through one session: call counters for the
scrape gateway, the analysis gateway, the model inside it, and the cache
gateway, plus the two persisted tables touched by the search flow. -/
structure World where
  scrapeCalls : Nat
  analysisCalls : Nat
  modelCalls : Nat
  cacheGets : Nat
  cacheSets : Nat
  savedProperties : List PropRec
  history : List SearchHistoryRow
deriving DecidableEq, Repr

/-- `SearchAgent.execute` (search_agent.py lines 37-78): one
`fetch_properties` call, then one `analyze_properties` call on its result;
no cache interaction and no persistence happen here.  The second component
counts model invocations inside the analysis gateway. -/
def SearchAgent.execute (env : Env)
    (city : String) (max_price : ℚ) (property_type : String) : SearchResult × Nat :=
  let properties := ScrapingService.fetch_properties env.scrapeResp city max_price property_type
  let ares := AIService.analyze_properties env.modelResp properties max_price
  ({ properties := properties, analysis := ares.1 }, ares.2)

/-- Outcome of one press of the search button. -/
inductive SearchOutcome where
  | errorNoCity                    -- st.error("⚠️ Please enter a city name.")
  | errorNoKeys                    -- st.error("⚠️ Please enter your API keys ...")
  | done (result : SearchResult)   -- result rendered to the user
deriving DecidableEq, Repr

/-- The search-tab handler of `main` (app.py lines 92-122):

    if not city: error
    elif not gemini_key or not firecrawl_key: error
    else:
        result = asyncio.run(agent.execute({...}))
        properties = result.get('properties', [])
        if properties:
            for prop in properties:
                try: PropertyCRUD.create(db, prop)
                except Exception: warn and continue      # best-effort
            SearchHistoryCRUD.create(db, city, property_type, max_price,
                                     len(properties))

`persistOk i` says whether persisting the `i`-th scraped property succeeds
(a failure is caught, logged, and skipped).  The handler never touches the
cache service: `CacheService` is not referenced anywhere in `app.py` or
`search_agent.py`. -/
def appSearchHandler (env : Env) (persistOk : Nat → Bool)
    (gemini_key firecrawl_key : String)
    (city : String) (max_price : ℚ) (property_type : String)
    (w : World) : SearchOutcome × World :=
  if city = "" then (.errorNoCity, w)
  else if gemini_key = "" ∨ firecrawl_key = "" then (.errorNoKeys, w)
  else
    let er := SearchAgent.execute env city max_price property_type
    let result := er.1
    let w := { w with scrapeCalls := w.scrapeCalls + 1,
                      analysisCalls := w.analysisCalls + 1,
                      modelCalls := w.modelCalls + er.2 }
    let properties := result.properties
    let w :=
      if properties.isEmpty then w
      else
        { w with
          savedProperties := w.savedProperties ++
            ((properties.enum.filter (fun ip => persistOk ip.1)).map (fun ip => ip.2)),
          history := w.history ++
            [{ city := city, property_type := property_type,
               max_price := max_price, results_count := properties.length }] }
    (.done result, w)

/-- Running the same request twice in a row against the same environment. -/
def appSearchTwice (env : Env) (persistOk : Nat → Bool)
    (gemini_key firecrawl_key : String)
    (city : String) (max_price : ℚ) (property_type : String)
    (w : World) : (SearchOutcome × SearchOutcome) × World :=
  let r1 := appSearchHandler env persistOk gemini_key firecrawl_key city max_price property_type w
  let r2 := appSearchHandler env persistOk gemini_key firecrawl_key city max_price property_type r1.2
  ((r1.1, r2.1), r2.2)

/-- The all-zero initial world. -/
def World.init : World :=
  { scrapeCalls := 0, analysisCalls := 0, modelCalls := 0,
    cacheGets := 0, cacheSets := 0, savedProperties := [], history := [] }

/-! ### Shared concrete data for witnesses and counterexamples -/

/-- A concrete scraped property record. -/
def sampleProp : PropRec :=
  { building_name := "Sky Towers", property_type := "Flat",
    location_address := "12 MG Road", price := "2.5 Cr",
    description := "Spacious 2BHK near the metro" }

/-- An environment whose providers succeed: the scrape returns one property,
the model returns a fixed analysis text. -/
def envOne : Env :=
  { scrapeResp := .ok { success := true, data := some { properties := some [sampleProp] } },
    modelResp := .ok (some "Good options close to your budget.") }

/-- An environment whose scrape succeeds with zero properties. -/
def envEmpty : Env :=
  { scrapeResp := .ok { success := true, data := some { properties := some [] } },
    modelResp := .ok (some "Good options close to your budget.") }

/-! ### Claims about the gateways -/

/-- C5: `fetch_properties` is total (never raises): it returns the provider's
extracted list exactly when the provider reports success and carries a
well-formed `data.properties` payload, and returns `[]` on an exception, an
unsuccessful response, or a malformed response (missing `data` or missing
`properties`); in every case the outcome is one of these two. -/
theorem C5_fetch_properties_never_raises
    (resp : Call FcResponse) (city : String) (max_price : ℚ) (property_type : String) :
    (∀ r d ps, resp = .ok r → r.success = true → r.data = some d → d.properties = some ps →
      ScrapingService.fetch_properties resp city max_price property_type = ps) ∧
    (∀ r, resp = .ok r → r.success = false →
      ScrapingService.fetch_properties resp city max_price property_type = []) ∧
    (∀ r, resp = .ok r → r.data = none →
      ScrapingService.fetch_properties resp city max_price property_type = []) ∧
    (∀ r d, resp = .ok r → r.data = some d → d.properties = none →
      ScrapingService.fetch_properties resp city max_price property_type = []) ∧
    (resp = Call.exn →
      ScrapingService.fetch_properties resp city max_price property_type = []) ∧
    (ScrapingService.fetch_properties resp city max_price property_type = [] ∨
      ∃ r d ps, resp = .ok r ∧ r.success = true ∧ r.data = some d ∧ d.properties = some ps ∧
        ScrapingService.fetch_properties resp city max_price property_type = ps) := by
  refine ⟨?_, ?_, ?_, ?_, ?_, ?_⟩
  · rintro r d ps rfl hs hd hp
    simp [ScrapingService.fetch_properties, hs, hd, hp]
  · rintro r rfl hs
    simp [ScrapingService.fetch_properties, hs]
  · rintro r rfl hd
    cases hs : r.success <;> simp [ScrapingService.fetch_properties, hs, hd]
  · rintro r d rfl hd hp
    cases hs : r.success <;> simp [ScrapingService.fetch_properties, hs, hd, hp]
  · rintro rfl
    simp [ScrapingService.fetch_properties]
  · match resp with
    | .exn => exact Or.inl (by simp [ScrapingService.fetch_properties])
    | .ok r =>
      cases hs : r.success with
      | false => exact Or.inl (by simp [ScrapingService.fetch_properties, hs])
      | true =>
        cases hd : r.data with
        | none => exact Or.inl (by simp [ScrapingService.fetch_properties, hs, hd])
        | some d =>
          cases hp : d.properties with
          | none => exact Or.inl (by simp [ScrapingService.fetch_properties, hs, hd, hp])
          | some ps =>
            exact Or.inr ⟨r, d, ps, rfl, hs, hd, hp,
              by simp [ScrapingService.fetch_properties, hs, hd, hp]⟩

/-- Witness for C5 at concrete inputs: a successful response yields its list,
an exception yields the empty list. -/
theorem C5_witness :
    ScrapingService.fetch_properties
      (.ok { success := true, data := some { properties := some [sampleProp] } })
      "Bangalore" 5 "Flat" = [sampleProp] ∧
    ScrapingService.fetch_properties Call.exn "Bangalore" 5 "Flat" = [] :=
  ⟨(C5_fetch_properties_never_raises _ "Bangalore" 5 "Flat").1 _ _ _ rfl rfl rfl rfl,
   (C5_fetch_properties_never_raises Call.exn "Bangalore" 5 "Flat").2.2.2.2.1 rfl⟩

/-- C6: the free-text analysis mode on an empty property list returns the
fixed "no properties found" message and performs zero model invocations. -/
theorem C6_empty_list_short_circuit (resp : Call (Option String)) (max_price : ℚ) :
    AIService.analyze_properties resp [] max_price =
      ("No properties found. Please try searching with different criteria.", 0) := rfl

/-- C8 counterexample: on a non-empty list, the call-failure fallback message
and the absent-text fallback message are two different fixed strings, so the
claim that both cases return the single "analysis could not be generated"
message is false. -/
theorem C8_counterexample :
    (AIService.analyze_properties Call.exn [sampleProp] 5).1 =
      "Error analyzing properties. Please check API configuration." ∧
    (AIService.analyze_properties (.ok none) [sampleProp] 5).1 =
      "Analysis could not be generated. Please try again." ∧
    (AIService.analyze_properties Call.exn [sampleProp] 5).1 ≠
      (AIService.analyze_properties (.ok none) [sampleProp] 5).1 :=
  ⟨rfl, rfl, by decide⟩

/-- C8 amended: on a non-empty list, an absent-text response yields the fixed
"Analysis could not be generated. Please try again." message, while a call
failure yields the distinct fixed "Error analyzing properties. Please check
API configuration." message; exactly one model invocation happens either way. -/
theorem C8_free_text_fallbacks (resp : Call (Option String))
    (properties : List PropRec) (max_price : ℚ) (h : properties ≠ []) :
    (resp = .ok none → AIService.analyze_properties resp properties max_price =
      ("Analysis could not be generated. Please try again.", 1)) ∧
    (resp = Call.exn → AIService.analyze_properties resp properties max_price =
      ("Error analyzing properties. Please check API configuration.", 1)) := by
  have he : properties.isEmpty = false := by
    cases properties with
    | nil => exact absurd rfl h
    | cons a l => rfl
  exact ⟨fun hr => by rw [hr]; simp [AIService.analyze_properties, he],
         fun hr => by rw [hr]; simp [AIService.analyze_properties, he]⟩

/-- Witness for C8 at concrete inputs. -/
theorem C8_witness :
    AIService.analyze_properties (.ok none) [sampleProp] 5 =
      ("Analysis could not be generated. Please try again.", 1) ∧
    AIService.analyze_properties Call.exn [sampleProp] 5 =
      ("Error analyzing properties. Please check API configuration.", 1) :=
  ⟨(C8_free_text_fallbacks (.ok none) [sampleProp] 5 (by decide)).1 rfl,
   (C8_free_text_fallbacks Call.exn [sampleProp] 5 (by decide)).2 rfl⟩

/-- C4: the structured investment-analysis mode returns exactly the hard-coded
default record — all four ROI/rate fields 0.0, risk score 50, recommendation
"hold", and the fixed fallback message — whenever the model call raises, the
response carries no text, or the (fence-stripped) response text does not parse
as JSON; being a total function, it propagates no error to the caller. -/
theorem C4_investment_default_on_failure (jsonParse : String → Option Json)
    (resp : Call (Option String)) (property_data : List (String × String)) :
    (resp = Call.exn →
      InvestmentAgent.execute jsonParse resp property_data = InvestmentAgent.get_default_analysis) ∧
    (resp = .ok none →
      InvestmentAgent.execute jsonParse resp property_data = InvestmentAgent.get_default_analysis) ∧
    (∀ t, resp = .ok (some t) → jsonParse (stripCodeFence t) = none →
      InvestmentAgent.execute jsonParse resp property_data = InvestmentAgent.get_default_analysis) ∧
    InvestmentAgent.get_default_analysis =
      Json.obj [("roi_5year", .num 0), ("roi_10year", .num 0),
                ("appreciation_rate", .num 0), ("rental_yield", .num 0),
                ("risk_score", .num 50), ("recommendation", .str "hold"),
                ("analysis", .str "Unable to generate investment analysis. Please try again or consult with a real estate expert.")] := by
  refine ⟨fun hr => by rw [hr]; rfl,
          fun hr => by rw [hr]; rfl,
          fun t hr hp => ?_, rfl⟩
  rw [hr]
  simp [InvestmentAgent.execute, hp]

/-- Witness for C4: a response whose text parses to nothing yields the default
record. -/
theorem C4_witness :
    InvestmentAgent.execute (fun _ => none) (.ok (some "this is not json")) [] =
      InvestmentAgent.get_default_analysis :=
  (C4_investment_default_on_failure (fun _ => none) (.ok (some "this is not json")) []).2.2.1
    "this is not json" rfl rfl

/-! ### Claims about the cache key and the persisted-property search -/

/-- C9: the cache key generator is order-independent: permuting the supplied
name/value pairs leaves the generated key unchanged, because the key is the
prefix followed by the pairs sorted by Python's tuple order (name, then
rendered value); hence two identically-valued requests map to one key. -/
theorem C9_generate_key_order_independent (pre : String)
    (params1 params2 : List (String × String)) (h : params1.Perm params2) :
    CacheService.generate_key pre params1 = CacheService.generate_key pre params2 := by
  have hs : List.insertionSort pairLe params1 = List.insertionSort pairLe params2 :=
    List.eq_of_perm_of_sorted
      ((List.perm_insertionSort pairLe params1).trans
        (h.trans (List.perm_insertionSort pairLe params2).symm))
      (List.sorted_insertionSort pairLe params1)
      (List.sorted_insertionSort pairLe params2)
  unfold CacheService.generate_key
  rw [hs]

/-- Witness for C9: the spec's example key, supplied in two different orders. -/
theorem C9_witness :
    CacheService.generate_key "search"
      [("city", "Bangalore"), ("max_price", "5.0"), ("property_type", "Flat")] =
    CacheService.generate_key "search"
      [("property_type", "Flat"), ("city", "Bangalore"), ("max_price", "5.0")] :=
  C9_generate_key_order_independent "search" _ _ (by decide)

/-- C10: in the persisted-property search, a falsy filter argument — city
`""`, property type `""`, or max price `0` — behaves exactly like an omitted
(`none`) filter, and in particular a search with city `""` and no other
filters returns the newest rows of all cities up to the limit. -/
theorem C10_falsy_filters_ignored (db : List PropertyRow)
    (city property_type : Option String) (max_price : Option ℚ) (limit : Nat) :
    PropertyCRUD.search db (some "") property_type max_price limit =
      PropertyCRUD.search db none property_type max_price limit ∧
    PropertyCRUD.search db city (some "") max_price limit =
      PropertyCRUD.search db city none max_price limit ∧
    PropertyCRUD.search db city property_type (some 0) limit =
      PropertyCRUD.search db city property_type none limit ∧
    PropertyCRUD.search db (some "") none none limit = (sortByCreatedDesc db).take limit := by
  refine ⟨by simp [PropertyCRUD.search], ?_, ?_, by simp [PropertyCRUD.search]⟩
  · cases city <;> simp [PropertyCRUD.search]
  · cases city <;> cases property_type <;> simp [PropertyCRUD.search]

/-! ### Claims about the orchestrated search pipeline -/

/-- C1 counterexample: issuing the identical valid request twice performs two
scrape-gateway calls and two analysis-gateway calls (not one of each in
total), and the cache gateway is never consulted — there is no cache hit to
serve the second request from. -/
theorem C1_counterexample :
    (appSearchTwice envOne (fun _ => true) "k1" "k2" "Bangalore" 5 "Flat" World.init).2.scrapeCalls = 2 ∧
    (appSearchTwice envOne (fun _ => true) "k1" "k2" "Bangalore" 5 "Flat" World.init).2.analysisCalls = 2 ∧
    (appSearchTwice envOne (fun _ => true) "k1" "k2" "Bangalore" 5 "Flat" World.init).2.cacheGets = 0 ∧
    (appSearchTwice envOne (fun _ => true) "k1" "k2" "Bangalore" 5 "Flat" World.init).2.cacheSets = 0 ∧
    ¬((appSearchTwice envOne (fun _ => true) "k1" "k2" "Bangalore" 5 "Flat" World.init).2.scrapeCalls = 1) := by
  refine ⟨rfl, rfl, rfl, rfl, by decide⟩

/-- C1 amended: the search pipeline never consults the cache gateway; every
valid request performs exactly one scrape-gateway call and one
analysis-gateway call, so two identical requests perform two of each, and —
the provider responses being fixed for the session — the two requests return
identical composite results. -/
theorem C1_pipeline_uncached (env : Env) (persistOk : Nat → Bool)
    (gemini_key firecrawl_key city : String) (max_price : ℚ) (property_type : String)
    (w : World) (hc : city ≠ "") (hg : gemini_key ≠ "") (hf : firecrawl_key ≠ "") :
    (appSearchHandler env persistOk gemini_key firecrawl_key city max_price property_type w).2.scrapeCalls
        = w.scrapeCalls + 1 ∧
    (appSearchHandler env persistOk gemini_key firecrawl_key city max_price property_type w).2.analysisCalls
        = w.analysisCalls + 1 ∧
    (appSearchHandler env persistOk gemini_key firecrawl_key city max_price property_type w).2.cacheGets
        = w.cacheGets ∧
    (appSearchHandler env persistOk gemini_key firecrawl_key city max_price property_type w).2.cacheSets
        = w.cacheSets ∧
    (appSearchHandler env persistOk gemini_key firecrawl_key city max_price property_type w).1
        = .done (SearchAgent.execute env city max_price property_type).1 ∧
    (appSearchTwice env persistOk gemini_key firecrawl_key city max_price property_type w).2.scrapeCalls
        = w.scrapeCalls + 2 ∧
    (appSearchTwice env persistOk gemini_key firecrawl_key city max_price property_type w).2.analysisCalls
        = w.analysisCalls + 2 ∧
    (appSearchTwice env persistOk gemini_key firecrawl_key city max_price property_type w).1.1
        = (appSearchTwice env persistOk gemini_key firecrawl_key city max_price property_type w).1.2 := by
  have hor : ¬(gemini_key = "" ∨ firecrawl_key = "") := by
    rintro (h | h)
    · exact hg h
    · exact hf h
  simp only [appSearchHandler, appSearchTwice, if_neg hc, if_neg hor]
  refine ⟨?_, ?_, ?_, ?_, ?_, ?_, ?_, ?_⟩ <;> first
    | trivial
    | (split <;> simp)

/-- Witness for C1 amended at a concrete request. -/
theorem C1_witness :
    (appSearchHandler envOne (fun _ => true) "k1" "k2" "Bangalore" 5 "Flat" World.init).2.scrapeCalls = 1 ∧
    (appSearchHandler envOne (fun _ => true) "k1" "k2" "Bangalore" 5 "Flat" World.init).2.cacheGets = 0 := by
  have h := C1_pipeline_uncached envOne (fun _ => true) "k1" "k2" "Bangalore" 5 "Flat"
    World.init (by decide) (by decide) (by decide)
  exact ⟨h.1, h.2.2.1⟩

/-- C2 counterexample: a request whose max price 200 lies outside the allowed
0.1-100 bound (and likewise one with an unknown property type) is not rejected:
no validation error is produced, the pipeline proceeds, and the scrape and
analysis gateways are each called once. -/
theorem C2_counterexample :
    (appSearchHandler envOne (fun _ => true) "k1" "k2" "Bangalore" 200 "Castle" World.init).1
      = .done (SearchAgent.execute envOne "Bangalore" 200 "Castle").1 ∧
    (appSearchHandler envOne (fun _ => true) "k1" "k2" "Bangalore" 200 "Castle" World.init).2.scrapeCalls = 1 ∧
    (appSearchHandler envOne (fun _ => true) "k1" "k2" "Bangalore" 200 "Castle" World.init).2.analysisCalls = 1 := by
  refine ⟨rfl, rfl, rfl⟩

/-- C2 amended: the only request validation the pipeline performs is the
empty-city check (surfaced as an error message): a request with city `""` is
rejected before any gateway call and leaves the world — call counters and
both persisted tables — completely unchanged; price bounds and property types
are constrained only by the input widgets, not checked by the pipeline. -/
theorem C2_empty_city_fails_fast (env : Env) (persistOk : Nat → Bool)
    (gemini_key firecrawl_key : String) (max_price : ℚ) (property_type : String) (w : World) :
    appSearchHandler env persistOk gemini_key firecrawl_key "" max_price property_type w
      = (.errorNoCity, w) := by
  simp [appSearchHandler]

/-- C3 counterexample: a successful orchestrated search that returns zero
properties creates no SearchHistoryEntry at all (the persistence block is
guarded by `if properties:`), refuting the claim that exactly one entry with
`results_count == 0` is created in the N = 0 case. -/
theorem C3_counterexample :
    (appSearchHandler envEmpty (fun _ => true) "k1" "k2" "Bangalore" 5 "Flat" World.init).1
      = .done { properties := [],
                analysis := "No properties found. Please try searching with different criteria." } ∧
    (appSearchHandler envEmpty (fun _ => true) "k1" "k2" "Bangalore" 5 "Flat" World.init).2.history
      = [] := by
  refine ⟨rfl, rfl⟩

/-- C3 amended: after a successful orchestrated search yielding N scraped
properties with N ≥ 1, exactly one new SearchHistoryEntry is appended and its
`results_count` equals N, the pre-persistence count — regardless of how many
individual property saves fail; when N = 0 no entry is created. -/
theorem C3_history_results_count (env : Env) (persistOk : Nat → Bool)
    (gemini_key firecrawl_key city : String) (max_price : ℚ) (property_type : String)
    (w : World) (hc : city ≠ "") (hg : gemini_key ≠ "") (hf : firecrawl_key ≠ "") :
    (appSearchHandler env persistOk gemini_key firecrawl_key city max_price property_type w).2.history
      = w.history ++
          (if (SearchAgent.execute env city max_price property_type).1.properties.isEmpty
           then []
           else [{ city := city, property_type := property_type, max_price := max_price,
                   results_count :=
                     (SearchAgent.execute env city max_price property_type).1.properties.length }]) := by
  have hor : ¬(gemini_key = "" ∨ firecrawl_key = "") := by
    rintro (h | h)
    · exact hg h
    · exact hf h
  simp only [appSearchHandler, if_neg hc, if_neg hor]
  split <;> simp_all

/-- Witness for C3 amended: one property scraped, every property save failing,
still exactly one history row with `results_count = 1`. -/
theorem C3_witness :
    (appSearchHandler envOne (fun _ => false) "k1" "k2" "Bangalore" 5 "Flat" World.init).2.history
      = [{ city := "Bangalore", property_type := "Flat", max_price := 5, results_count := 1 }] := by
  have h := C3_history_results_count envOne (fun _ => false) "k1" "k2" "Bangalore" 5 "Flat"
    World.init (by decide) (by decide) (by decide)
  simpa using h

/-! ### Lemmas about the Python string helpers, towards C7 -/

/-- The backtick character, extracted from the fence marker. -/
def backtickChar : Char := fenceChars.headD ' '

theorem fenceChars_eq : fenceChars = [backtickChar, backtickChar, backtickChar] := by decide

theorem jsonTagChars_eq : jsonTagChars = ['j', 's', 'o', 'n'] := by decide

theorem length_dropWhile_le (p : Char → Bool) (l : List Char) :
    (l.dropWhile p).length ≤ l.length :=
  (List.dropWhile_sublist _).length_le

theorem dropWhile_eq_self_of_length (p : Char → Bool) (l : List Char)
    (h : (l.dropWhile p).length = l.length) : l.dropWhile p = l := by
  cases l with
  | nil => rfl
  | cons c tl =>
    rw [List.dropWhile_cons]
    split
    · exfalso
      rename_i hp
      rw [List.dropWhile_cons, if_pos hp] at h
      have h1 := length_dropWhile_le p tl
      simp only [List.length_cons] at h
      omega
    · rfl

theorem rstripL_length_le (l : List Char) : (rstripL l).length ≤ l.length := by
  simp only [rstripL, List.length_reverse]
  calc (l.reverse.dropWhile isPySpace).length
      ≤ l.reverse.length := length_dropWhile_le _ _
    _ = l.length := List.length_reverse _

theorem of_pyStripL_eq_self (l : List Char) (h : pyStripL l = l) :
    lstripL l = l ∧ rstripL l = l := by
  have h1 : (lstripL l).length ≤ l.length := length_dropWhile_le _ _
  have h2 : l.length ≤ (lstripL l).length := by
    calc l.length = (pyStripL l).length := by rw [h]
      _ ≤ (lstripL l).length := rstripL_length_le _
  have hL : lstripL l = l :=
    dropWhile_eq_self_of_length _ _ (le_antisymm h1 h2)
  refine ⟨hL, ?_⟩
  rw [pyStripL, hL] at h
  exact h

theorem lstripL_cons_not (c : Char) (cs : List Char) (h : isPySpace c = false) :
    lstripL (c :: cs) = c :: cs := by
  simp [lstripL, List.dropWhile_cons, h]

theorem lstripL_cons_space (c : Char) (cs : List Char) (h : isPySpace c = true) :
    lstripL (c :: cs) = lstripL cs := by
  simp [lstripL, List.dropWhile_cons, h]

theorem rstripL_append_space (cs : List Char) (c : Char) (h : isPySpace c = true) :
    rstripL (cs ++ [c]) = rstripL cs := by
  simp [rstripL, List.dropWhile_cons, h]

theorem head_not_space_of_lstrip (c : Char) (tl : List Char)
    (h : lstripL (c :: tl) = c :: tl) : isPySpace c = false := by
  cases hx : isPySpace c with
  | false => rfl
  | true =>
    rw [lstripL, List.dropWhile_cons, hx] at h
    simp only [if_true] at h
    have h1 := length_dropWhile_le isPySpace tl
    have h2 := congrArg List.length h
    simp only [List.length_cons] at h2
    omega

theorem rstripL_eq_self_of_getLast (l : List Char) (c : Char)
    (h : l.getLast? = some c) (hc : isPySpace c = false) : rstripL l = l := by
  have hr : l.reverse.head? = some c := by rw [List.head?_reverse]; exact h
  rcases hrev : l.reverse with _ | ⟨d, td⟩
  · rw [hrev] at hr; cases hr
  · rw [hrev] at hr
    have hdc : d = c := by injection hr
    subst hdc
    have hl : l = (d :: td).reverse := by rw [← hrev, List.reverse_reverse]
    rw [rstripL, hrev, List.dropWhile_cons, hc]
    simp [hl]

theorem pyStripL_eq_self_of_ends (l : List Char) (c1 c2 : Char)
    (h1 : l.head? = some c1) (hc1 : isPySpace c1 = false)
    (h2 : l.getLast? = some c2) (hc2 : isPySpace c2 = false) : pyStripL l = l := by
  rcases l with _ | ⟨d, td⟩
  · cases h1
  · have hd : d = c1 := by injection h1
    rw [pyStripL, lstripL_cons_not _ _ (hd ▸ hc1)]
    exact rstripL_eq_self_of_getLast _ _ h2 hc2

theorem takeUntilFence_append (xs ys : List Char) (h : ∀ c ∈ xs, c ≠ backtickChar) :
    takeUntilFence (xs ++ fenceChars ++ ys) = xs := by
  induction xs with
  | nil =>
    have hg : fenceChars.isPrefixOf
        (backtickChar :: backtickChar :: backtickChar :: ys) = true := by
      rw [fenceChars_eq]
      simp [List.isPrefixOf]
    have hshape : ([] : List Char) ++ fenceChars ++ ys
        = backtickChar :: backtickChar :: backtickChar :: ys := by
      rw [fenceChars_eq]
      simp
    rw [hshape]
    simp only [takeUntilFence]
    rw [hg]
    simp
  | cons c tl ih =>
    have hc : c ≠ backtickChar := h c (List.mem_cons_self c tl)
    have hih := ih (fun d hd => h d (List.mem_cons_of_mem c hd))
    have hbc : (backtickChar == c) = false := by
      rw [beq_eq_false_iff_ne]
      exact fun he => hc he.symm
    have hguard : fenceChars.isPrefixOf (c :: (tl ++ fenceChars ++ ys)) = false := by
      rw [fenceChars_eq]
      simp [List.isPrefixOf, hbc]
    have hshape : (c :: tl) ++ fenceChars ++ ys = c :: (tl ++ fenceChars ++ ys) := by
      simp
    rw [hshape]
    simp only [takeUntilFence]
    rw [hguard]
    simp only [Bool.false_eq_true, if_false]
    rw [hih]

theorem pyStripL_nl_wrap (js : List Char) (hs : pyStripL js = js) :
    pyStripL ('\n' :: (js ++ ['\n'])) = js := by
  obtain ⟨hL, hR⟩ := of_pyStripL_eq_self js hs
  rw [pyStripL, lstripL_cons_space _ _ (by decide)]
  rcases js with _ | ⟨c, tl⟩
  · decide
  · have hc : isPySpace c = false := head_not_space_of_lstrip c tl hL
    rw [List.cons_append, lstripL_cons_not _ _ hc, ← List.cons_append,
        rstripL_append_space _ _ (by decide)]
    exact hR

theorem stripCodeFenceL_json_fence (js : List Char)
    (hbt : ∀ c ∈ js, c ≠ backtickChar) (hs : pyStripL js = js) :
    stripCodeFenceL (fenceChars ++ jsonTagChars ++ ('\n' :: js) ++ ('\n' :: fenceChars)) = js := by
  have hLcons : fenceChars ++ jsonTagChars ++ ('\n' :: js) ++ ('\n' :: fenceChars)
      = backtickChar :: backtickChar :: backtickChar ::
          (('j' :: 's' :: 'o' :: 'n' :: '\n' :: (js ++ ['\n'])) ++ fenceChars) := by
    rw [fenceChars_eq, jsonTagChars_eq]
    simp
  rw [hLcons]
  have hhead : (backtickChar :: backtickChar :: backtickChar ::
      (('j' :: 's' :: 'o' :: 'n' :: '\n' :: (js ++ ['\n'])) ++ fenceChars)).head?
      = some backtickChar := rfl
  have hlast : (backtickChar :: backtickChar :: backtickChar ::
      (('j' :: 's' :: 'o' :: 'n' :: '\n' :: (js ++ ['\n'])) ++ fenceChars)).getLast?
      = some backtickChar := by
    rw [show backtickChar :: backtickChar :: backtickChar ::
          (('j' :: 's' :: 'o' :: 'n' :: '\n' :: (js ++ ['\n'])) ++ fenceChars)
        = (backtickChar :: backtickChar :: backtickChar ::
            ('j' :: 's' :: 'o' :: 'n' :: '\n' :: (js ++ ['\n']))) ++ fenceChars from by simp]
    rw [List.getLast?_append_of_ne_nil _ (by rw [fenceChars_eq]; simp)]
    rw [fenceChars_eq]
    decide
  have hps : pyStripL (backtickChar :: backtickChar :: backtickChar ::
      (('j' :: 's' :: 'o' :: 'n' :: '\n' :: (js ++ ['\n'])) ++ fenceChars))
      = backtickChar :: backtickChar :: backtickChar ::
          (('j' :: 's' :: 'o' :: 'n' :: '\n' :: (js ++ ['\n'])) ++ fenceChars) :=
    pyStripL_eq_self_of_ends _ _ _ hhead (by decide) hlast (by decide)
  have hguard : fenceChars.isPrefixOf (backtickChar :: backtickChar :: backtickChar ::
      (('j' :: 's' :: 'o' :: 'n' :: '\n' :: (js ++ ['\n'])) ++ fenceChars)) = true := by
    rw [fenceChars_eq]
    simp [List.isPrefixOf]
  have htake : takeUntilFence (('j' :: 's' :: 'o' :: 'n' :: '\n' :: (js ++ ['\n'])) ++ fenceChars)
      = 'j' :: 's' :: 'o' :: 'n' :: '\n' :: (js ++ ['\n']) := by
    have hmem : ∀ c ∈ 'j' :: 's' :: 'o' :: 'n' :: '\n' :: (js ++ ['\n']), c ≠ backtickChar := by
      intro c hcm
      simp at hcm
      rcases hcm with rfl | rfl | rfl | rfl | rfl | hcm | rfl
      all_goals first
        | decide
        | exact hbt c hcm
    have := takeUntilFence_append ('j' :: 's' :: 'o' :: 'n' :: '\n' :: (js ++ ['\n'])) [] hmem
    simpa using this
  have htag : jsonTagChars.isPrefixOf ('j' :: 's' :: 'o' :: 'n' :: '\n' :: (js ++ ['\n']))
      = true := by
    rw [jsonTagChars_eq]
    simp [List.isPrefixOf]
  simp only [stripCodeFenceL]
  rw [hps, hguard]
  simp only [if_true]
  rw [show (backtickChar :: backtickChar :: backtickChar ::
      (('j' :: 's' :: 'o' :: 'n' :: '\n' :: (js ++ ['\n'])) ++ fenceChars)).drop 3
      = ('j' :: 's' :: 'o' :: 'n' :: '\n' :: (js ++ ['\n'])) ++ fenceChars from rfl]
  rw [htake, htag]
  simp only [if_true]
  rw [show ('j' :: 's' :: 'o' :: 'n' :: '\n' :: (js ++ ['\n'])).drop 4
      = '\n' :: (js ++ ['\n']) from rfl]
  exact pyStripL_nl_wrap js hs

theorem stripCodeFenceL_plain_fence (js : List Char)
    (hbt : ∀ c ∈ js, c ≠ backtickChar) (hs : pyStripL js = js) :
    stripCodeFenceL (fenceChars ++ ('\n' :: js) ++ ('\n' :: fenceChars)) = js := by
  have hLcons : fenceChars ++ ('\n' :: js) ++ ('\n' :: fenceChars)
      = backtickChar :: backtickChar :: backtickChar ::
          (('\n' :: (js ++ ['\n'])) ++ fenceChars) := by
    rw [fenceChars_eq]
    simp
  rw [hLcons]
  have hhead : (backtickChar :: backtickChar :: backtickChar ::
      (('\n' :: (js ++ ['\n'])) ++ fenceChars)).head? = some backtickChar := rfl
  have hlast : (backtickChar :: backtickChar :: backtickChar ::
      (('\n' :: (js ++ ['\n'])) ++ fenceChars)).getLast? = some backtickChar := by
    rw [show backtickChar :: backtickChar :: backtickChar ::
          (('\n' :: (js ++ ['\n'])) ++ fenceChars)
        = (backtickChar :: backtickChar :: backtickChar ::
            ('\n' :: (js ++ ['\n']))) ++ fenceChars from by simp]
    rw [List.getLast?_append_of_ne_nil _ (by rw [fenceChars_eq]; simp)]
    rw [fenceChars_eq]
    decide
  have hps : pyStripL (backtickChar :: backtickChar :: backtickChar ::
      (('\n' :: (js ++ ['\n'])) ++ fenceChars))
      = backtickChar :: backtickChar :: backtickChar ::
          (('\n' :: (js ++ ['\n'])) ++ fenceChars) :=
    pyStripL_eq_self_of_ends _ _ _ hhead (by decide) hlast (by decide)
  have hguard : fenceChars.isPrefixOf (backtickChar :: backtickChar :: backtickChar ::
      (('\n' :: (js ++ ['\n'])) ++ fenceChars)) = true := by
    rw [fenceChars_eq]
    simp [List.isPrefixOf]
  have htake : takeUntilFence (('\n' :: (js ++ ['\n'])) ++ fenceChars)
      = '\n' :: (js ++ ['\n']) := by
    have hmem : ∀ c ∈ '\n' :: (js ++ ['\n']), c ≠ backtickChar := by
      intro c hcm
      simp at hcm
      rcases hcm with rfl | hcm | rfl
      all_goals first
        | decide
        | exact hbt c hcm
    have := takeUntilFence_append ('\n' :: (js ++ ['\n'])) [] hmem
    simpa using this
  have htag : jsonTagChars.isPrefixOf ('\n' :: (js ++ ['\n'])) = false := by
    rw [jsonTagChars_eq]
    simp [List.isPrefixOf]
  simp only [stripCodeFenceL]
  rw [hps, hguard]
  simp only [if_true]
  rw [show (backtickChar :: backtickChar :: backtickChar ::
      (('\n' :: (js ++ ['\n'])) ++ fenceChars)).drop 3
      = ('\n' :: (js ++ ['\n'])) ++ fenceChars from rfl]
  rw [htake, htag]
  simp only [Bool.false_eq_true, if_false]
  exact pyStripL_nl_wrap js hs

theorem stripCodeFenceL_bare (js : List Char)
    (hbt : ∀ c ∈ js, c ≠ backtickChar) (hs : pyStripL js = js) :
    stripCodeFenceL js = js := by
  have hguard : fenceChars.isPrefixOf js = false := by
    cases js with
    | nil => rw [fenceChars_eq]; rfl
    | cons c tl =>
      have hc : c ≠ backtickChar := hbt c (List.mem_cons_self c tl)
      have hbc : (backtickChar == c) = false := by
        rw [beq_eq_false_iff_ne]
        exact fun he => hc he.symm
      rw [fenceChars_eq]
      simp [List.isPrefixOf, hbc]
  simp only [stripCodeFenceL]
  rw [hs, hguard]
  simp

/-- C7: for a structured-mode model response consisting of a JSON text wrapped
in a markdown code fence — leading/trailing ``` with an optional `json`
language tag, the fence markers being the only backticks of the response —
the agent strips the fence marker and the language tag before parsing, and
both agents return exactly what they return for the bare JSON text.
(`hbt` says the payload `j` contains no backtick, i.e. the fence is genuinely
leading/trailing; `hs` says `j` carries no leading/trailing whitespace of its
own, as `.strip()` is applied to both forms.) -/
theorem C7_code_fence_stripping (jsonParse : String → Option Json)
    (property_data : List (String × String)) (city property_type timeframe : String)
    (j : String) (hbt : ∀ c ∈ j.data, c ≠ backtickChar) (hs : pyStrip j = j) :
    stripCodeFence ("```json\n" ++ j ++ "\n```") = j ∧
    stripCodeFence ("```\n" ++ j ++ "\n```") = j ∧
    stripCodeFence j = j ∧
    InvestmentAgent.execute jsonParse (.ok (some ("```json\n" ++ j ++ "\n```"))) property_data
      = InvestmentAgent.execute jsonParse (.ok (some j)) property_data ∧
    MarketTrendAgent.execute jsonParse (.ok (some ("```json\n" ++ j ++ "\n```")))
        city property_type timeframe
      = MarketTrendAgent.execute jsonParse (.ok (some j)) city property_type timeframe := by
  have hsL : pyStripL j.data = j.data := congrArg String.data hs
  have h1L : stripCodeFenceL (("```json\n" ++ j ++ "\n```").data) = j.data := by
    rw [show ("```json\n" ++ j ++ "\n```").data
        = fenceChars ++ jsonTagChars ++ ('\n' :: j.data) ++ ('\n' :: fenceChars) from by
      rw [String.data_append, String.data_append,
          show "```json\n".data = fenceChars ++ jsonTagChars ++ ['\n'] from by decide,
          show "\n```".data = '\n' :: fenceChars from by decide]
      simp]
    exact stripCodeFenceL_json_fence j.data hbt hsL
  have h2L : stripCodeFenceL (("```\n" ++ j ++ "\n```").data) = j.data := by
    rw [show ("```\n" ++ j ++ "\n```").data
        = fenceChars ++ ('\n' :: j.data) ++ ('\n' :: fenceChars) from by
      rw [String.data_append, String.data_append,
          show "```\n".data = fenceChars ++ ['\n'] from by decide,
          show "\n```".data = '\n' :: fenceChars from by decide]
      simp]
    exact stripCodeFenceL_plain_fence j.data hbt hsL
  have h3L : stripCodeFenceL j.data = j.data := stripCodeFenceL_bare j.data hbt hsL
  have h1 : stripCodeFence ("```json\n" ++ j ++ "\n```") = j := by
    simp only [stripCodeFence]
    rw [h1L]
  have h2 : stripCodeFence ("```\n" ++ j ++ "\n```") = j := by
    simp only [stripCodeFence]
    rw [h2L]
  have h3 : stripCodeFence j = j := by
    simp only [stripCodeFence]
    rw [h3L]
  refine ⟨h1, h2, h3, ?_, ?_⟩
  · simp only [InvestmentAgent.execute]
    rw [h1, h3]
  · simp only [MarketTrendAgent.execute]
    rw [h1, h3]

/-- Witness for C7 at a concrete fenced JSON object. -/
theorem C7_witness :
    stripCodeFence ("```json\n" ++ "\x7b\"risk_score\": 50\x7d" ++ "\n```") = "\x7b\"risk_score\": 50\x7d" ∧
    InvestmentAgent.execute (fun _ => none)
        (.ok (some ("```json\n" ++ "\x7b\"risk_score\": 50\x7d" ++ "\n```"))) []
      = InvestmentAgent.execute (fun _ => none) (.ok (some "\x7b\"risk_score\": 50\x7d")) [] := by
  have h := C7_code_fence_stripping (fun _ => none) [] "" "" "" "\x7b\"risk_score\": 50\x7d"
    (by decide) (by decide)
  exact ⟨h.1, h.2.2.2.1⟩
